import Mathlib

/-!
Shallow embedding of the Warbler ORM layer (`src/models.py`).

Database rows become Lean structures, the relational store becomes an
explicit `DBState` record of row lists, and the SQLAlchemy relationship
collections become functions of the state.  Timestamps are modelled as
natural-number clock values; the external bcrypt collaborator is modelled
by an executable hash/check pair that keeps its essential properties
(the hash is never equal to the plaintext, and `check` accepts exactly
the hash of the given password).
-/

namespace Warbler

/-- A row of the `follows` table (`FollowersFollowee` model): composite
primary key `(followee_id, follower_id)`, both foreign keys into `users`. -/
structure FollowersFollowee where
  followee_id : Nat
  follower_id : Nat
deriving DecidableEq, Repr

/-- A row of the `likes` table (`Like` model): composite primary key
`(user_id, message_id)`. -/
structure Like where
  user_id : Nat
  message_id : Nat
deriving DecidableEq, Repr

/-- A row of the `users` table (`User` model).  `bio` and `location` are
nullable; `image_url` and `header_image_url` carry the schema defaults. -/
structure User where
  id : Nat
  email : String
  username : String
  image_url : String := "/static/images/default-pic.png"
  header_image_url : String := "/static/images/warbler-hero.jpg"
  bio : Option String := none
  location : Option String := none
  password : String
deriving DecidableEq, Repr

/-- A row of the `messages` table (`Message` model). -/
structure Message where
  id : Nat
  text : String
  timestamp : Nat
  user_id : Nat
deriving DecidableEq, Repr

/-- A row of the `comments` table (`Comment` model). -/
structure Comment where
  id : Nat
  text : String
  timestamp : Nat
  user_id : Nat
  message_id : Nat
deriving DecidableEq, Repr

/-- The relational store: one list of rows per table. -/
structure DBState where
  users : List User
  follows : List FollowersFollowee
  likes : List Like
  messages : List Message
  comments : List Comment
deriving DecidableEq, Repr

/-- The `User.followers` relationship as declared in the source:
`primaryjoin = (FollowersFollowee.follower_id == id)` joins this user to
the secondary table, `secondaryjoin = (FollowersFollowee.followee_id == id)`
joins the secondary table to the target user.  The join therefore yields,
for each `follows` row whose `follower_id` equals this user's id, the
user whose id equals the row's `followee_id`. -/
def User.followers (st : DBState) (self : User) : List User :=
  (st.follows.filter (fun r => r.follower_id == self.id)).filterMap
    (fun r => st.users.find? (fun u => u.id == r.followee_id))

/-- The `following` backref of the `followers` relationship: the same join
with primary and secondary conditions exchanged, so it yields, for each
`follows` row whose `followee_id` equals this user's id, the user whose id
equals the row's `follower_id`. -/
def User.following (st : DBState) (self : User) : List User :=
  (st.follows.filter (fun r => r.followee_id == self.id)).filterMap
    (fun r => st.users.find? (fun u => u.id == r.follower_id))

/-- `User.is_followed_by`: builds the sublist of `self.followers` equal to
`other_user` and returns whether its length is exactly 1. -/
def User.is_followed_by (st : DBState) (self other_user : User) : Bool :=
  ((User.followers st self).filter (fun user => user == other_user)).length == 1

/-- `User.is_following`: builds the sublist of `self.following` equal to
`other_user` and returns whether its length is exactly 1. -/
def User.is_following (st : DBState) (self other_user : User) : Bool :=
  ((User.following st self).filter (fun user => user == other_user)).length == 1

/-- Model of the external bcrypt collaborator's
`generate_password_hash(password).decode('UTF-8')`: an irreversible,
format-prefixed digest.  The model keeps the property the claims need:
the output is never the plaintext (it is strictly longer). -/
def generate_password_hash (password : String) : String :=
  "$2b$12$" ++ password

/-- Model of `bcrypt.check_password_hash(stored, password)`: accepts
exactly when `stored` is the hash of `password`. -/
def check_password_hash (stored password : String) : Bool :=
  stored == generate_password_hash password

/-- `User.signup`: hashes the password and constructs the new `User`
record that the source stages with `db.session.add`.  The surrogate id the
storage engine will assign at commit is passed explicitly. -/
def User.signup (username email password image_url : String)
    (next_id : Nat) : User :=
  { id := next_id
    email := email
    username := username
    image_url := image_url
    password := generate_password_hash password }

/-- Error string standing for the storage engine's uniqueness violation. -/
def uniquenessViolation : String := "UNIQUE constraint failed"

/-- Commit of a staged user by the storage collaborator: enforces the
declared `unique=True` constraints on `username` and `email`, then appends
the row. -/
def commitUser (st : DBState) (u : User) : Except String DBState :=
  if st.users.any (fun v => v.username == u.username) then
    .error uniquenessViolation
  else if st.users.any (fun v => v.email == u.email) then
    .error uniquenessViolation
  else
    .ok { st with users := st.users ++ [u] }

/-- `User.authenticate`: `cls.query.filter_by(username=username).first()`
is the first stored user with that username; on a hit the stored hash is
checked, on success the user is returned, and both failure paths return
the same `return False` value, modelled as `none`. -/
def User.authenticate (st : DBState) (username password : String) :
    Option User :=
  match st.users.find? (fun u => u.username == username) with
  | some user =>
      if check_password_hash user.password password then some user else none
  | none => none

/-- The `Message.likes` relationship (backref `message` on `Like`): all
`likes` rows whose `message_id` is this message's id. -/
def Message.likes (st : DBState) (self : Message) : List Like :=
  st.likes.filter (fun l => l.message_id == self.id)

/-- `Message.is_liked_by`: builds the sublist of this message's likes with
the given `user_id` and returns whether its length is positive. -/
def Message.is_liked_by (st : DBState) (self : Message) (user_id : Nat) :
    Bool :=
  decide (0 < ((Message.likes st self).filter
    (fun like => like.user_id == user_id)).length)

/-- The `user` backref on `Message`: the owning user resolved through the
foreign key, `none` when the owner is not loadable. -/
def Message.user (st : DBState) (self : Message) : Option User :=
  st.users.find? (fun u => u.id == self.user_id)

/-- The `user` backref on `Comment`. -/
def Comment.user (st : DBState) (self : Comment) : Option User :=
  st.users.find? (fun u => u.id == self.user_id)

/-- A value of the JSON-compatible mapping returned by `serialize`. -/
inductive Value where
  | nat : Nat → Value
  | str : String → Value
deriving DecidableEq, Repr

/-- `Message.serialize`: the dict literal of the source, requiring the
owning user to be loadable (`self.user.username`). -/
def Message.serialize (st : DBState) (self : Message) :
    Option (List (String × Value)) :=
  match Message.user st self with
  | some u => some
      [("id", .nat self.id),
       ("text", .str self.text),
       ("user_id", .nat self.user_id),
       ("timestamp", .nat self.timestamp),
       ("username", .str u.username)]
  | none => none

/-- `Comment.serialize`: the dict literal of the source, requiring the
owning user to be loadable (`self.user.username`, `self.user.image_url`). -/
def Comment.serialize (st : DBState) (self : Comment) :
    Option (List (String × Value)) :=
  match Comment.user st self with
  | some u => some
      [("id", .nat self.id),
       ("text", .str self.text),
       ("user_id", .nat self.user_id),
       ("timestamp", .nat self.timestamp),
       ("username", .str u.username),
       ("msg_id", .nat self.message_id),
       ("image_url", .str u.image_url)]
  | none => none

/-- The column default of `Message.timestamp` and `Comment.timestamp`.
The source writes `default=datetime.utcnow()`: the call is evaluated once,
when the module is loaded, so the default is the fixed clock value of that
moment, not a callable consulted per row. -/
def timestampColumnDefault (module_load_time : Nat) : Nat :=
  module_load_time

/-- Creation of a `Message` row: when no explicit timestamp is supplied the
storage layer applies the column default.  `creation_time` is the clock at
the moment this row is created; the source's default expression does not
consult it. -/
def mkMessage (module_load_time creation_time : Nat) (i : Nat)
    (text : String) (user_id : Nat) (explicit_timestamp : Option Nat) :
    Message :=
  { id := i
    text := text
    timestamp := explicit_timestamp.getD (timestampColumnDefault module_load_time)
    user_id := user_id }

/-- Creation of a `Comment` row, with the same column-default behaviour. -/
def mkComment (module_load_time creation_time : Nat) (i : Nat)
    (text : String) (user_id message_id : Nat)
    (explicit_timestamp : Option Nat) : Comment :=
  { id := i
    text := text
    timestamp := explicit_timestamp.getD (timestampColumnDefault module_load_time)
    user_id := user_id
    message_id := message_id }

/-- Insertion of a `follows` row by the storage collaborator: the composite
primary key `(followee_id, follower_id)` declared in the source forbids a
second row with the same pair, and a failed insertion produces an error
instead of a new state. -/
def insertFollow (st : DBState) (r : FollowersFollowee) :
    Except String DBState :=
  if st.follows.any (fun s =>
      s.followee_id == r.followee_id && s.follower_id == r.follower_id) then
    .error uniquenessViolation
  else
    .ok { st with follows := st.follows ++ [r] }

/-- Insertion of a `likes` row by the storage collaborator: the composite
primary key `(user_id, message_id)` forbids a second row with the same
pair. -/
def insertLike (st : DBState) (l : Like) : Except String DBState :=
  if st.likes.any (fun s =>
      s.user_id == l.user_id && s.message_id == l.message_id) then
    .error uniquenessViolation
  else
    .ok { st with likes := st.likes ++ [l] }

/-- The stored state after an attempted follow insertion: on failure the
store keeps its previous state. -/
def stateAfterInsertFollow (st : DBState) (r : FollowersFollowee) :
    DBState :=
  match insertFollow st r with
  | .ok st1 => st1
  | .error _ => st

/-- The stored state after an attempted like insertion: on failure the
store keeps its previous state. -/
def stateAfterInsertLike (st : DBState) (l : Like) : DBState :=
  match insertLike st l with
  | .ok st1 => st1
  | .error _ => st

/-- Concrete user A (id 1) used by concrete evaluations. -/
def userA : User :=
  { id := 1, email := "a@x.com", username := "alice", password := "hA" }

/-- Concrete user B (id 2) used by concrete evaluations. -/
def userB : User :=
  { id := 2, email := "b@x.com", username := "bob", password := "hB" }

/-- A state holding users A and B and no follow rows. -/
def stNoFollow : DBState :=
  { users := [userA, userB], follows := [], likes := [],
    messages := [], comments := [] }

/-- The state after creating the single follow row with `follower_id`
A's id and `followee_id` B's id — the row meaning "A follows B". -/
def stAfollowsB : DBState :=
  { stNoFollow with follows := [{ followee_id := 2, follower_id := 1 }] }

/-- A state with two duplicate follow rows, violating the composite primary
key invariant, to exercise the membership predicates outside it. -/
def stDupFollow : DBState :=
  { users := [userA, userB],
    follows := [{ followee_id := 1, follower_id := 2 },
                { followee_id := 1, follower_id := 2 }],
    likes := [], messages := [], comments := [] }

/-- The empty store. -/
def stEmpty : DBState :=
  { users := [], follows := [], likes := [], messages := [], comments := [] }

/-- A concrete message owned by user A. -/
def msg1 : Message :=
  { id := 1, text := "hello", timestamp := 0, user_id := 1 }

/-- A concrete comment by user B on `msg1`. -/
def cmt1 : Comment :=
  { id := 1, text := "yo", timestamp := 0, user_id := 2, message_id := 1 }

/-- The mapping `msg1.serialize()` produces in `stNoFollow`. -/
def msgDict : List (String × Value) :=
  [("id", .nat 1), ("text", .str "hello"), ("user_id", .nat 1),
   ("timestamp", .nat 0), ("username", .str "alice")]

/-- The mapping `cmt1.serialize()` produces in `stNoFollow`. -/
def cmtDict : List (String × Value) :=
  [("id", .nat 1), ("text", .str "yo"), ("user_id", .nat 2),
   ("timestamp", .nat 0), ("username", .str "bob"), ("msg_id", .nat 1),
   ("image_url", .str "/static/images/default-pic.png")]

/-- A state holding one follow row and one like row, for exercising the
duplicate-insertion behaviour. -/
def stWithRows : DBState :=
  { users := [userA, userB],
    follows := [{ followee_id := 2, follower_id := 1 }],
    likes := [{ user_id := 1, message_id := 1 }],
    messages := [msg1], comments := [] }

/-! ### Helper lemmas -/

/-- `find?` skips a prefix on which the predicate is everywhere false. -/
theorem find?_append_of_false {α : Type} (p : α → Bool) (l1 l2 : List α)
    (h : ∀ a ∈ l1, p a = false) :
    (l1 ++ l2).find? p = l2.find? p := by
  induction l1 with
  | nil => rfl
  | cons a l ih =>
      have ha : p a = false := h a (List.mem_cons_self a l)
      rw [List.cons_append, List.find?_cons, ha]
      exact ih (fun b hb => h b (List.mem_cons_of_mem a hb))

/-- On a user list with pairwise distinct ids, `id` is injective. -/
theorem id_inj_of_pairwise (users : List User)
    (hnodup : users.Pairwise (fun u v => u.id ≠ v.id))
    (u v : User) (hu : u ∈ users) (hv : v ∈ users) (h : u.id = v.id) :
    u = v := by
  have hsymm : Symmetric (fun (u v : User) => u.id ≠ v.id) :=
    fun _ _ hab h2 => hab h2.symm
  by_contra hne
  exact hnodup.forall hsymm hu hv hne h

/-- Resolving a foreign key through `find?` and comparing the result with a
stored user `X` is the same as comparing the key with `X.id`, provided `X`
is stored and ids are pairwise distinct. -/
theorem resolve_beq_eq (users : List User) (X : User) (n : Nat)
    (hX : X ∈ users) (hnodup : users.Pairwise (fun u v => u.id ≠ v.id)) :
    ((users.find? (fun u => u.id == n)).elim false (fun u => u == X))
      = (n == X.id) := by
  cases hf : users.find? (fun u => u.id == n) with
  | none =>
      have hnone := List.find?_eq_none.mp hf
      have hne : ¬ (n = X.id) := fun h => hnone X hX (by simp [h])
      simp only [Option.elim]
      symm
      rw [beq_eq_false_iff_ne]
      exact hne
  | some u =>
      have hu_mem := List.mem_of_find?_eq_some hf
      have hu_id : u.id = n := by simpa using List.find?_some hf
      by_cases hx : u = X
      · subst hx
        simp [Option.elim, hu_id]
      · have hne : ¬ (n = X.id) := fun h =>
          hx (id_inj_of_pairwise users hnodup u X hu_mem hX (hu_id.trans h))
        simp only [Option.elim]
        rw [beq_eq_false_iff_ne.mpr hx]
        symm
        rw [beq_eq_false_iff_ne]
        exact hne

/-- The length of `filter q (filterMap g (filter p rows))` as a single
`countP` over `rows`. -/
theorem length_filter_filterMap_filter {α β : Type} (rows : List α)
    (p : α → Bool) (g : α → Option β) (q : β → Bool) :
    (((rows.filter p).filterMap g).filter q).length
      = rows.countP (fun r => p r && ((g r).elim false q)) := by
  induction rows with
  | nil => rfl
  | cons r rows ih =>
      by_cases hp : p r
      · cases hg : g r with
        | none =>
            simp [List.filter_cons, hp, List.filterMap_cons, hg,
              List.countP_cons, ih, Option.elim]
        | some b =>
            by_cases hq : q b
            · simp [List.filter_cons, hp, List.filterMap_cons, hg, hq,
                List.countP_cons, ih, Option.elim]
            · simp [List.filter_cons, hp, List.filterMap_cons, hg, hq,
                List.countP_cons, ih, Option.elim]
      · simp [List.filter_cons, hp, List.countP_cons, ih]

/-! ### Claim theorems -/

/-- C1: settles the claim by evaluating the code at the failing input.
With no follow rows both predicates are false, as the claim states; but
after creating the single row `(follower_id = A.id, followee_id = B.id)`
— the row meaning "A follows B" — `B.is_followed_by(A)` and
`A.is_following(B)` are still false, while the converse calls
`A.is_followed_by(B)` and `B.is_following(A)` are true: the relationship
joins are swapped relative to the column meanings. -/
theorem follow_row_predicates_inverted :
    (User.is_followed_by stNoFollow userB userA = false
     ∧ User.is_following stNoFollow userA userB = false)
    ∧ (User.is_followed_by stAfollowsB userB userA = false
       ∧ User.is_following stAfollowsB userA userB = false)
    ∧ (User.is_followed_by stAfollowsB userA userB = true
       ∧ User.is_following stAfollowsB userB userA = true) := by
  decide

/-- C2: settles the claim by evaluating the code at the failing input.
With the module loaded at clock 100, a message (and a comment) created at
clock 200 without an explicit timestamp stores 100, the module-load time,
not its creation time 200. -/
theorem timestamp_default_ignores_creation_clock :
    (mkMessage 100 200 1 "hi" 1 none).timestamp = 100
    ∧ (mkMessage 100 200 1 "hi" 1 none).timestamp ≠ 200
    ∧ (mkComment 100 200 1 "hi" 1 1 none).timestamp = 100
    ∧ (mkComment 100 200 1 "hi" 1 1 none).timestamp ≠ 200 := by
  decide

/-- C8: the column default is the single value obtained when the module was
loaded, so every message and comment created without an explicit timestamp
receives that same value, whatever its creation time. -/
theorem timestamp_default_is_module_load_constant
    (module_load_time t1 t2 i1 i2 : Nat) (s1 s2 : String) (u1 u2 m2 : Nat) :
    (mkMessage module_load_time t1 i1 s1 u1 none).timestamp
      = module_load_time
    ∧ (mkComment module_load_time t2 i2 s2 u2 m2 none).timestamp
      = module_load_time
    ∧ (mkMessage module_load_time t1 i1 s1 u1 none).timestamp
      = (mkMessage module_load_time t2 i2 s2 u2 none).timestamp :=
  ⟨rfl, rfl, rfl⟩

/-- C7: `Message.is_liked_by(user_id)` is true exactly when some like row
attached to this message carries that user id. -/
theorem is_liked_by_iff_exists_like (st : DBState) (m : Message)
    (user_id : Nat) :
    Message.is_liked_by st m user_id = true
      ↔ ∃ l, l ∈ st.likes ∧ l.message_id = m.id ∧ l.user_id = user_id := by
  simp only [Message.is_liked_by, Message.likes, decide_eq_true_eq,
    List.length_pos_iff_exists_mem, List.mem_filter, beq_iff_eq]
  constructor
  · rintro ⟨l, ⟨⟨hl, hm⟩, hu⟩⟩
    exact ⟨l, hl, hm, hu⟩
  · rintro ⟨l, hl, hm, hu⟩
    exact ⟨l, ⟨⟨hl, hm⟩, hu⟩⟩

/-- C9: `A.is_following(B)` and `B.is_followed_by(A)` always agree: the
`following` backref is the converse join of the `followers` relationship,
so both calls count exactly the rows with `followee_id = A.id` and
`follower_id = B.id`.  The hypotheses are the store invariants: both users
are stored and user ids (the `users` primary key) are pairwise distinct. -/
theorem is_following_eq_is_followed_by (st : DBState) (A B : User)
    (hA : A ∈ st.users) (hB : B ∈ st.users)
    (hnodup : st.users.Pairwise (fun u v => u.id ≠ v.id)) :
    User.is_following st A B = User.is_followed_by st B A := by
  unfold User.is_following User.is_followed_by User.following User.followers
  rw [length_filter_filterMap_filter, length_filter_filterMap_filter]
  have hcount : st.follows.countP (fun r =>
        (r.followee_id == A.id)
          && ((st.users.find? (fun u => u.id == r.follower_id)).elim false
                (fun u => u == B)))
      = st.follows.countP (fun r =>
        (r.follower_id == B.id)
          && ((st.users.find? (fun u => u.id == r.followee_id)).elim false
                (fun u => u == A))) := by
    apply List.countP_congr
    intro r _
    rw [resolve_beq_eq st.users B r.follower_id hB hnodup,
      resolve_beq_eq st.users A r.followee_id hA hnodup,
      Bool.and_comm]
  rw [hcount]

/-- C9 witness: in the concrete state where A follows B, both predicate
pairs agree (here: both directions evaluate to the same boolean). -/
theorem is_following_eq_is_followed_by_witness :
    User.is_following stAfollowsB userA userB
      = User.is_followed_by stAfollowsB userB userA :=
  is_following_eq_is_followed_by stAfollowsB userA userB (by decide)
    (by decide) (by decide)

/-- C10: the membership predicates return true exactly when the other user
occurs exactly once (count 1) in the relationship collection, and in a
state with a duplicated follow pair — outside the composite-primary-key
invariant — a user that is a member of the collection is reported as not
followed-by. -/
theorem membership_predicates_count_one :
    (∀ st self other_user,
        (User.is_followed_by st self other_user = true
          ↔ (User.followers st self).count other_user = 1)
        ∧ (User.is_following st self other_user = true
          ↔ (User.following st self).count other_user = 1))
    ∧ (userA ∈ User.followers stDupFollow userB
       ∧ User.is_followed_by stDupFollow userB userA = false) := by
  constructor
  · intro st self other_user
    constructor
    · rw [User.is_followed_by, List.count,
        ← List.countP_eq_length_filter, beq_iff_eq]
    · rw [User.is_following, List.count,
        ← List.countP_eq_length_filter, beq_iff_eq]
  · exact ⟨by decide, by decide⟩

/-- C3: with a fresh username and email, `signup` followed by a successful
commit yields exactly one stored user with that username, its stored
password field differs from the plaintext, and `authenticate` with the
original credentials returns that user. -/
theorem signup_commit_authenticate (st : DBState)
    (username email password image_url : String) (next_id : Nat)
    (hname : ∀ v ∈ st.users, v.username ≠ username)
    (hemail : ∀ v ∈ st.users, v.email ≠ email) :
    ∃ st1,
      commitUser st (User.signup username email password image_url next_id)
        = .ok st1
      ∧ (st1.users.filter (fun v => v.username == username)).length = 1
      ∧ (User.signup username email password image_url next_id).password
          ≠ password
      ∧ User.authenticate st1 username password
          = some (User.signup username email password image_url next_id) := by
  have huname :
      (User.signup username email password image_url next_id).username
        = username := rfl
  have hupass :
      (User.signup username email password image_url next_id).password
        = generate_password_hash password := rfl
  refine ⟨{ st with users :=
    st.users ++ [User.signup username email password image_url next_id] },
    ?_, ?_, ?_, ?_⟩
  · have hanyname : st.users.any (fun v => v.username ==
        (User.signup username email password image_url next_id).username)
          = false := by
      rw [List.any_eq_false]
      intro v hv
      simp [huname, hname v hv]
    have hanyemail : st.users.any (fun v => v.email ==
        (User.signup username email password image_url next_id).email)
          = false := by
      rw [List.any_eq_false]
      intro v hv
      have huemail :
          (User.signup username email password image_url next_id).email
            = email := rfl
      simp [huemail, hemail v hv]
    simp [commitUser, hanyname, hanyemail]
  · rw [List.filter_append]
    have h1 : st.users.filter (fun v => v.username == username) = [] := by
      rw [List.filter_eq_nil_iff]
      intro v hv
      simp [hname v hv]
    rw [h1]
    simp [huname]
  · rw [hupass, generate_password_hash]
    intro hcontra
    have hlen := congrArg String.length hcontra
    rw [String.length_append] at hlen
    have h7 : ("$2b$12$" : String).length = 7 := rfl
    omega
  · have hfind : (st.users ++
        [User.signup username email password image_url next_id]).find?
          (fun v => v.username == username)
        = some (User.signup username email password image_url next_id) := by
      rw [find?_append_of_false _ _ _ (fun v hv => by simp [hname v hv])]
      simp [huname]
    simp [User.authenticate, hfind, check_password_hash, hupass]

/-- C3 witness: the concrete signup of alice on the empty store. -/
theorem signup_commit_authenticate_witness :
    ∃ st1,
      commitUser stEmpty (User.signup "alice" "a@x.com" "pw" "img" 1)
        = .ok st1
      ∧ (st1.users.filter (fun v => v.username == "alice")).length = 1
      ∧ (User.signup "alice" "a@x.com" "pw" "img" 1).password ≠ "pw"
      ∧ User.authenticate st1 "alice" "pw"
          = some (User.signup "alice" "a@x.com" "pw" "img" 1) :=
  signup_commit_authenticate stEmpty "alice" "a@x.com" "pw" "img" 1
    (by simp [stEmpty]) (by simp [stEmpty])

/-- C4: `authenticate` returns the stored user exactly when the username
lookup succeeds and the password verifies against the stored hash; when
the lookup fails and when the lookup succeeds but the password does not
verify, it returns the one same not-authenticated value, so the return
value does not reveal which failure occurred. -/
theorem authenticate_single_failure_value (st : DBState)
    (username password : String) :
    (∀ u, st.users.find? (fun v => v.username == username) = some u →
        ((check_password_hash u.password password = true →
            User.authenticate st username password = some u)
         ∧ (check_password_hash u.password password = false →
            User.authenticate st username password = none)))
    ∧ (st.users.find? (fun v => v.username == username) = none →
        User.authenticate st username password = none) := by
  constructor
  · intro u hu
    constructor <;> intro hc <;> simp [User.authenticate, hu, hc]
  · intro hn
    simp [User.authenticate, hn]

/-- C4 witness: unknown username and wrong password both produce the same
concrete not-authenticated value. -/
theorem authenticate_single_failure_value_witness :
    User.authenticate stNoFollow "carol" "pw" = none
    ∧ User.authenticate stNoFollow "alice" "wrong" = none :=
  ⟨(authenticate_single_failure_value stNoFollow "carol" "pw").2 (by decide),
   ((authenticate_single_failure_value stNoFollow "alice" "wrong").1 userA
      (by decide)).2 (by decide)⟩

/-- C5: when the owning user is loadable, `Message.serialize` produces a
mapping with exactly the keys id, text, user_id, timestamp, username, and
`Comment.serialize` one with exactly the keys id, text, user_id,
timestamp, username, msg_id, image_url, in this order. -/
theorem serialize_key_sets (st : DBState) (m : Message) (c : Comment)
    (dm dc : List (String × Value))
    (hm : Message.serialize st m = some dm)
    (hc : Comment.serialize st c = some dc) :
    dm.map Prod.fst = ["id", "text", "user_id", "timestamp", "username"]
    ∧ dc.map Prod.fst
        = ["id", "text", "user_id", "timestamp", "username", "msg_id",
           "image_url"] := by
  constructor
  · cases hu : Message.user st m with
    | none => rw [Message.serialize, hu] at hm; cases hm
    | some u =>
        rw [Message.serialize, hu] at hm
        cases hm
        rfl
  · cases hu : Comment.user st c with
    | none => rw [Comment.serialize, hu] at hc; cases hc
    | some u =>
        rw [Comment.serialize, hu] at hc
        cases hc
        rfl

/-- C5 witness: the concrete serializations of `msg1` and `cmt1`. -/
theorem serialize_key_sets_witness :
    msgDict.map Prod.fst = ["id", "text", "user_id", "timestamp", "username"]
    ∧ cmtDict.map Prod.fst
        = ["id", "text", "user_id", "timestamp", "username", "msg_id",
           "image_url"] :=
  serialize_key_sets stNoFollow msg1 cmt1 msgDict cmtDict (by decide)
    (by decide)

/-- C6: inserting a `follows` or `likes` row whose composite key already
exists fails with the uniqueness violation, and the stored state after the
failed insertion is unchanged. -/
theorem duplicate_composite_key_insert_fails (st : DBState)
    (r : FollowersFollowee) (l : Like)
    (hr : r ∈ st.follows) (hl : l ∈ st.likes) :
    insertFollow st r = .error uniquenessViolation
    ∧ stateAfterInsertFollow st r = st
    ∧ insertLike st l = .error uniquenessViolation
    ∧ stateAfterInsertLike st l = st := by
  have hfr : st.follows.any (fun s =>
      s.followee_id == r.followee_id && s.follower_id == r.follower_id)
        = true := by
    rw [List.any_eq_true]
    exact ⟨r, hr, by simp⟩
  have hfl : st.likes.any (fun s =>
      s.user_id == l.user_id && s.message_id == l.message_id) = true := by
    rw [List.any_eq_true]
    exact ⟨l, hl, by simp⟩
  refine ⟨?_, ?_, ?_, ?_⟩ <;>
    simp [insertFollow, insertLike, stateAfterInsertFollow,
      stateAfterInsertLike, hfr, hfl]

/-- C6 witness: re-inserting the stored follow row and like row of a
concrete state fails and leaves the state intact. -/
theorem duplicate_composite_key_insert_fails_witness :
    insertFollow stWithRows { followee_id := 2, follower_id := 1 }
      = .error uniquenessViolation
    ∧ stateAfterInsertFollow stWithRows { followee_id := 2, follower_id := 1 }
      = stWithRows
    ∧ insertLike stWithRows { user_id := 1, message_id := 1 }
      = .error uniquenessViolation
    ∧ stateAfterInsertLike stWithRows { user_id := 1, message_id := 1 }
      = stWithRows :=
  duplicate_composite_key_insert_fails stWithRows
    { followee_id := 2, follower_id := 1 } { user_id := 1, message_id := 1 }
    (by decide) (by decide)

end Warbler
